import Mathlib

/-!
Verification of the Poco Net socket-layer specification against a shallow
embedding. The repository sources contain only the test suite
(src/Net/testsuite/src/SocketTest.cpp); the Net library implementation
itself (Socket, StreamSocket, ServerSocket, FIFOBuffer, select/poll) is not
present under src/. All operational definitions below are therefore
modelled from the specification (spec.md), faithful to its words, and the
claims are settled against these models together with the expectations
recorded in the test suite.

Bytes are modelled as natural numbers (no arithmetic is ever performed on
them, so no overflow discipline is needed). Time is modelled as data:
durations and elapsed times are microsecond counts.
-/

/-- Modelled from the spec: the error taxonomy of section 7. The Net
library implementation is absent from src/, so failure kinds are modelled
as distinguishable variants: connection-refused, timeout, invalid-argument
(kind-incompatible assignment), and the would-block indication of
non-blocking mode (section 5). -/
inductive NetError
  | connectionRefused
  | timeout
  | invalidArgument
  | wouldBlock
  deriving DecidableEq

/-- Modelled from the spec: the addressing families of section 6 (IPv4,
IPv6, and Unix-domain local sockets). -/
inductive AddressFamily
  | ipv4
  | ipv6
  | unixLocal
  deriving DecidableEq

/-- Modelled from the spec: a connected stream pair over the echo-server
harness (sections 2 and 8). The missing EchoServer collaborator reads the
bytes sent to it and writes them back unchanged; the connection state
records the bytes in flight towards the server and the echoed bytes
pending for the client, each as an ordered byte sequence. -/
structure EchoConn where
  family : AddressFamily
  toServer : List Nat
  toClient : List Nat
  deriving DecidableEq

/-- Modelled from the spec: connecting to the echo server yields a fresh
connected pair with no bytes in flight in either direction. -/
def EchoConn.connect (fam : AddressFamily) : EchoConn :=
  ⟨fam, [], []⟩

/-- Modelled from the spec: sendBytes performs one transfer attempt and
returns the number of bytes transferred (section 4.2); on the connected
loopback pair of the harness the whole buffer is transferred, appended in
order to the bytes in flight towards the server. -/
def EchoConn.sendBytes (c : EchoConn) (data : List Nat) : EchoConn × Nat :=
  ({ c with toServer := c.toServer ++ data }, data.length)

/-- Modelled from the spec: the echo server reads the bytes available on
its side and writes them back unchanged, preserving order (section 2,
echo-server harness). -/
def EchoConn.echoStep (c : EchoConn) : EchoConn :=
  { c with toServer := [], toClient := c.toClient ++ c.toServer }

/-- Modelled from the spec: receiveBytes performs one transfer attempt and
returns the bytes transferred, at most the destination buffer size, taken
in order from the bytes pending for the client (section 4.2). -/
def EchoConn.receiveBytes (c : EchoConn) (bufSize : Nat) : EchoConn × List Nat :=
  ({ c with toClient := c.toClient.drop bufSize }, c.toClient.take bufSize)

/-- The five bytes of the ASCII string "hello", the payload used
throughout the test suite. -/
def helloBytes : List Nat := [104, 101, 108, 108, 111]

/-- C1: over a freshly connected echo pair of any address family (IPv4
loopback and Unix-domain alike), sending N bytes reports N transferred,
and after the echo server reflects them, a receive with buffer size at
least N yields exactly those N bytes in the same order. -/
theorem echo_roundtrip (fam : AddressFamily) (data : List Nat) (bufSize : Nat)
    (h : data.length ≤ bufSize) :
    ((EchoConn.connect fam).sendBytes data).2 = data.length ∧
    ((((EchoConn.connect fam).sendBytes data).1.echoStep).receiveBytes bufSize).2 = data := by
  refine ⟨rfl, ?_⟩
  simp [EchoConn.connect, EchoConn.sendBytes, EchoConn.echoStep, EchoConn.receiveBytes]
  exact h

/-- Witness for C1: the concrete "hello" exchange of the test suite, over
IPv4 loopback and over a Unix-domain address. -/
theorem echo_roundtrip_witness :
    (helloBytes.length ≤ 256 ∧
      ((EchoConn.connect AddressFamily.ipv4).sendBytes helloBytes).2 = helloBytes.length ∧
      ((((EchoConn.connect AddressFamily.ipv4).sendBytes helloBytes).1.echoStep).receiveBytes 256).2 = helloBytes) ∧
    (((EchoConn.connect AddressFamily.unixLocal).sendBytes helloBytes).2 = helloBytes.length ∧
      ((((EchoConn.connect AddressFamily.unixLocal).sendBytes helloBytes).1.echoStep).receiveBytes 256).2 = helloBytes) :=
  ⟨⟨by decide, echo_roundtrip AddressFamily.ipv4 helloBytes 256 (by decide)⟩,
    echo_roundtrip AddressFamily.unixLocal helloBytes 256 (by decide)⟩

/-- Modelled from the spec: the transition events of the EventBuffer
(section 4.4), each carrying the boolean argument delivered to the
listeners of the corresponding signal channel. -/
inductive FEvent
  | readable (b : Bool)
  | writable (b : Bool)
  deriving DecidableEq

/-- Modelled from the spec: the events fired by one buffer operation that
moves the occupied length from oldLen to newLen in a buffer of capacity
cap (section 4.4): readable true on the empty-to-non-empty crossing,
readable false on non-empty-to-empty, writable false on the crossing to
full, writable true on the crossing from full to having room. Only
genuine boundary crossings fire, so an operation that leaves the length
unchanged fires nothing. -/
def transitionEvents (cap oldLen newLen : Nat) : List FEvent :=
  (if oldLen = 0 ∧ 0 < newLen then [FEvent.readable true] else []) ++
  (if 0 < oldLen ∧ newLen = 0 then [FEvent.readable false] else []) ++
  (if oldLen < cap ∧ newLen = cap then [FEvent.writable false] else []) ++
  (if oldLen = cap ∧ newLen < cap then [FEvent.writable true] else [])

/-- Modelled from the spec: the EventBuffer (FIFOBuffer) of section 4.4, a
capacity-bounded buffer holding its logical contents in order. The
circular cursors of the implementation are abstracted to the logical byte
sequence they expose. -/
structure FIFOBuffer where
  capacity : Nat
  contents : List Nat
  deriving DecidableEq

/-- Modelled from the spec: an EventBuffer is created empty with a
caller-chosen capacity (section 4.4). -/
def FIFOBuffer.empty (cap : Nat) : FIFOBuffer :=
  ⟨cap, []⟩

/-- Modelled from the spec: write copies as many source bytes as fit,
bounded by free capacity, returning the new buffer, the count written and
the transition events fired (section 4.4). -/
def FIFOBuffer.write (f : FIFOBuffer) (src : List Nat) : FIFOBuffer × Nat × List FEvent :=
  let n := min src.length (f.capacity - f.contents.length)
  let newContents := f.contents ++ src.take n
  ({ f with contents := newContents }, n,
    transitionEvents f.capacity f.contents.length newContents.length)

/-- Modelled from the spec: read removes as many bytes as available,
bounded by the destination capacity, returning the new buffer, the bytes
removed and the transition events fired (section 4.4). -/
def FIFOBuffer.read (f : FIFOBuffer) (destCap : Nat) : FIFOBuffer × List Nat × List FEvent :=
  ({ f with contents := f.contents.drop destCap }, f.contents.take destCap,
    transitionEvents f.capacity f.contents.length (f.contents.drop destCap).length)

/-- Modelled from the spec: the sendBytes(EventBuffer) overload drains the
buffer directly into the socket, triggering the buffer's own transition
events (section 4.2); the connected loopback socket accepts everything
available, so the whole occupied region is drained. Returns the updated
connection, the updated buffer, the byte count sent and the events. -/
def sendBytesFIFO (c : EchoConn) (f : FIFOBuffer) : EchoConn × FIFOBuffer × Nat × List FEvent :=
  let r := f.read f.contents.length
  let s := c.sendBytes r.2.1
  (s.1, r.1, s.2, r.2.2)

/-- Modelled from the spec: the receiveBytes(EventBuffer) overload fills
the buffer directly from the socket, writing the pending incoming bytes
bounded by the buffer's free capacity and triggering its transition
events (section 4.2). -/
def receiveBytesFIFO (c : EchoConn) (f : FIFOBuffer) : EchoConn × FIFOBuffer × Nat × List FEvent :=
  let w := f.write c.toClient
  ({ c with toClient := c.toClient.drop w.2.1 }, w.1, w.2.1, w.2.2)

/-- Stage 1 of the EventBuffer scenario of the test suite: writing the
five "hello" bytes into an empty buffer of capacity 5. -/
def fifoStage1 : FIFOBuffer × Nat × List FEvent :=
  (FIFOBuffer.empty 5).write helloBytes

/-- Stage 2 of the EventBuffer scenario: draining the full buffer into a
freshly connected echo socket via the sendBytes overload. -/
def fifoStage2 : EchoConn × FIFOBuffer × Nat × List FEvent :=
  sendBytesFIFO (EchoConn.connect AddressFamily.ipv4) fifoStage1.1

/-- Stage 3 of the EventBuffer scenario: after the echo server reflects
the bytes, refilling the emptied buffer via the receiveBytes overload. -/
def fifoStage3 : EchoConn × FIFOBuffer × Nat × List FEvent :=
  receiveBytesFIFO fifoStage2.1.echoStep fifoStage2.2.1

/-- C2: writing 5 bytes into an empty capacity-5 EventBuffer fires exactly
one readable(true) and one writable(false) event and no others; draining
all 5 bytes through the socket fires exactly one readable(false) and one
writable(true); refilling from the socket fires exactly one more
readable(true) and one more writable(false); the buffer contents after the
round trip are the original bytes; and a zero-byte write or read fires no
event at all, so no crossing ever fires twice. -/
theorem fifo_event_transitions :
    (fifoStage1.2.2 = [FEvent.readable true, FEvent.writable false] ∧ fifoStage1.2.1 = 5) ∧
    (fifoStage2.2.2.2 = [FEvent.readable false, FEvent.writable true] ∧
      fifoStage2.2.2.1 = 5 ∧ fifoStage2.2.1.contents = []) ∧
    (fifoStage3.2.2.2 = [FEvent.readable true, FEvent.writable false] ∧
      fifoStage3.2.2.1 = 5 ∧ fifoStage3.2.1.contents = helloBytes) ∧
    (∀ f : FIFOBuffer, (f.write []).2.2 = [] ∧ (f.read 0).2.2 = []) := by
  refine ⟨by decide, by decide, by decide, fun f => ⟨?_, ?_⟩⟩
  · simp only [FIFOBuffer.write, List.take_nil, List.append_nil]
    unfold transitionEvents
    split_ifs <;> first | rfl | (exfalso; omega)
  · simp only [FIFOBuffer.read, List.drop_zero]
    unfold transitionEvents
    split_ifs <;> first | rfl | (exfalso; omega)

/-- Modelled from the spec: a socket as seen by the multiplexer (section
4.3): a handle together with its current readiness for each of the three
interests (read, write, error). -/
structure MSocket where
  handle : Nat
  readReady : Bool
  writeReady : Bool
  errReady : Bool
  deriving DecidableEq

/-- Modelled from the spec: Socket.select (section 4.3) waits up to the
timeout, returns the total number of (socket, interest) readiness events
found, and overwrites each input list in place with the subset of its
members found ready for that list's interest. The model evaluates
readiness directly from each socket's state; the timeout is honoured but
does not affect which sockets are ready. -/
def socketSelect (readList writeList exceptList : List MSocket) (timeout : Nat) :
    Nat × List MSocket × List MSocket × List MSocket :=
  let r := readList.filter (fun s => s.readReady)
  let w := writeList.filter (fun s => s.writeReady)
  let e := exceptList.filter (fun s => s.errReady)
  (r.length + w.length + e.length, r, w, e)

/-- C3: select returns the total count of ready (socket, interest) pairs
and retains exactly the ready members in each list: with two sockets of
which exactly one is read-ready it returns 1 and the read list keeps only
that socket; with nothing ready it returns 0 and all three lists become
empty; with all three lists initially empty it returns 0 without error;
and every ready socket of an input list appears in the corresponding
output list. -/
theorem select_spec (timeout : Nat) :
    (∀ s1 s2 : MSocket, s1.readReady = true → s2.readReady = false →
      socketSelect [s1, s2] [] [] timeout = (1, [s1], [], [])) ∧
    (∀ rl wl el : List MSocket,
      (∀ s ∈ rl, s.readReady = false) → (∀ s ∈ wl, s.writeReady = false) →
      (∀ s ∈ el, s.errReady = false) →
      socketSelect rl wl el timeout = (0, [], [], [])) ∧
    socketSelect [] [] [] timeout = (0, [], [], []) ∧
    (∀ (rl wl el : List MSocket) (s : MSocket),
      (s ∈ rl → s.readReady = true → s ∈ (socketSelect rl wl el timeout).2.1) ∧
      (s ∈ wl → s.writeReady = true → s ∈ (socketSelect rl wl el timeout).2.2.1) ∧
      (s ∈ el → s.errReady = true → s ∈ (socketSelect rl wl el timeout).2.2.2)) := by
  refine ⟨?_, ?_, rfl, ?_⟩
  · intro s1 s2 h1 h2
    simp [socketSelect, h1, h2]
  · intro rl wl el hr hw he
    simp only [socketSelect]
    rw [List.filter_eq_nil_iff.mpr (by intro s hs; simp [hr s hs]),
      List.filter_eq_nil_iff.mpr (by intro s hs; simp [hw s hs]),
      List.filter_eq_nil_iff.mpr (by intro s hs; simp [he s hs])]
    rfl
  · intro rl wl el s
    refine ⟨fun hm hy => ?_, fun hm hy => ?_, fun hm hy => ?_⟩ <;>
      simp [socketSelect, List.mem_filter, hm, hy]

/-- Witness for C3: the two-socket scenario of the test suite, with socket
1 read-ready and socket 2 idle, at a 100000-microsecond timeout. -/
theorem select_spec_witness :
    socketSelect [⟨1, true, false, false⟩, ⟨2, false, false, false⟩] [] [] 100000
      = (1, [⟨1, true, false, false⟩], [], []) :=
  (select_spec 100000).1 ⟨1, true, false, false⟩ ⟨2, false, false, false⟩ rfl rfl

/-- Modelled from the spec: the kind tag of a socket façade (section 3),
established at construction: plain Socket, StreamSocket or ServerSocket. -/
inductive SocketKind
  | plain
  | stream
  | server
  deriving DecidableEq

/-- Modelled from the spec: a socket façade is a kind tag plus a shared
reference to a handle, here identified by a number (section 3). -/
structure SockFacade where
  kind : SocketKind
  handle : Nat
  deriving DecidableEq

/-- Modelled from the spec: kind tags are compatible for assignment and
copy-construction except between the stream and server kinds, in either
direction (section 3: a ServerSocket-kind handle cannot be assigned into a
StreamSocket façade or vice versa). -/
def kindCompatible : SocketKind → SocketKind → Bool
  | SocketKind.stream, SocketKind.server => false
  | SocketKind.server, SocketKind.stream => false
  | _, _ => true

/-- Modelled from the spec: assignment between façades shares the source's
handle when the kind tags are compatible and otherwise fails with the
invalid-argument condition, never silently coercing (sections 3 and 7). -/
def assignFacade (target source : SockFacade) : Except NetError SockFacade :=
  if kindCompatible target.kind source.kind then
    Except.ok { target with handle := source.handle }
  else
    Except.error NetError.invalidArgument

/-- Modelled from the spec: copy-construction of a façade of a given kind
from a source façade, subject to the same kind-compatibility rule as
assignment (section 3). -/
def copyConstructFacade (k : SocketKind) (source : SockFacade) : Except NetError SockFacade :=
  if kindCompatible k source.kind then
    Except.ok ⟨k, source.handle⟩
  else
    Except.error NetError.invalidArgument

/-- C4: for every handle pair, assigning a server-kind façade into a
stream façade, assigning a stream-kind façade into a server façade, and
copy-constructing in both incompatible directions, all fail with the
invalid-argument condition; the operation is total, so it neither
silently succeeds nor crashes. -/
theorem incompatible_assignment (hs hv : Nat) :
    assignFacade ⟨SocketKind.stream, hs⟩ ⟨SocketKind.server, hv⟩
      = Except.error NetError.invalidArgument ∧
    assignFacade ⟨SocketKind.server, hv⟩ ⟨SocketKind.stream, hs⟩
      = Except.error NetError.invalidArgument ∧
    copyConstructFacade SocketKind.stream ⟨SocketKind.server, hv⟩
      = Except.error NetError.invalidArgument ∧
    copyConstructFacade SocketKind.server ⟨SocketKind.stream, hs⟩
      = Except.error NetError.invalidArgument := by
  refine ⟨?_, ?_, ?_, ?_⟩ <;> rfl

/-- Modelled from the spec: a transport endpoint as consumed by Socket
(section 6): a host plus a port. -/
structure NetAddr where
  host : String
  port : Nat
  deriving DecidableEq

/-- Modelled from the spec: bind(address) plus listen() reserve an address
and transition to listening state (section 4.2); the world is the list of
currently listening addresses. -/
def bindListen (world : List NetAddr) (a : NetAddr) : List NetAddr :=
  a :: world

/-- Modelled from the spec: closing a listening socket releases its
address, so later connection attempts to it are actively refused. -/
def closeListener (world : List NetAddr) (a : NetAddr) : List NetAddr :=
  world.erase a

/-- Modelled from the spec: the blocking connect(address) (section 4.2)
succeeds when the address is listening and otherwise fails with the
connection-refused condition; the model is a total function, so the call
always returns rather than blocking indefinitely. -/
def connectBlocking (world : List NetAddr) (a : NetAddr) : Except NetError Unit :=
  if a ∈ world then Except.ok () else Except.error NetError.connectionRefused

/-- Modelled from the spec: connect(address, timeout) performs a
non-blocking connect raced against a deadline and converts the readiness
result into success, refused or timeout (section 4.2); on a dead address
the race outcome decides between the timeout and the connection-refused
condition. -/
def connectWithTimeout (world : List NetAddr) (a : NetAddr) (raceTimedOut : Bool) :
    Except NetError Unit :=
  if a ∈ world then Except.ok ()
  else if raceTimedOut then Except.error NetError.timeout
  else Except.error NetError.connectionRefused

/-- C5: connecting to an address that was bound, listened on and then
closed never succeeds: the blocking connect fails with connection-refused,
and the timeout form fails with either the timeout or the
connection-refused condition, for every outcome of the race. -/
theorem connect_refused (world : List NetAddr) (a : NetAddr) (race : Bool)
    (h : a ∉ world) :
    connectBlocking (closeListener (bindListen world a) a) a
      = Except.error NetError.connectionRefused ∧
    (connectWithTimeout (closeListener (bindListen world a) a) a race
        = Except.error NetError.timeout ∨
      connectWithTimeout (closeListener (bindListen world a) a) a race
        = Except.error NetError.connectionRefused) := by
  have hw : closeListener (bindListen world a) a = world := by
    simp [closeListener, bindListen]
  rw [hw]
  constructor
  · simp [connectBlocking, h]
  · cases race
    · right
      simp [connectWithTimeout, h]
    · left
      simp [connectWithTimeout, h]

/-- Witness for C5: the test-suite scenario at a concrete loopback address
bound and closed in an empty world, with the race timing out. -/
theorem connect_refused_witness :
    (⟨"127.0.0.1", 12345⟩ : NetAddr) ∉ ([] : List NetAddr) ∧
    connectBlocking (closeListener (bindListen [] ⟨"127.0.0.1", 12345⟩) ⟨"127.0.0.1", 12345⟩)
        ⟨"127.0.0.1", 12345⟩ = Except.error NetError.connectionRefused :=
  ⟨by simp,
    (connect_refused [] ⟨"127.0.0.1", 12345⟩ true (by simp)).1⟩

/-- Modelled from the spec: a connected socket handle carrying its
configured send and receive timeouts (none means an unbounded blocking
wait), the incoming bytes pending on it, and whether an attempted send
can currently make progress (sections 4.1 and 4.2). -/
structure TSocket where
  isOpen : Bool
  recvTimeout : Option Nat
  sendTimeout : Option Nat
  pending : List Nat
  sendBlocked : Bool
  deriving DecidableEq

/-- Modelled from the spec: the outcome of one blocking transfer attempt
(section 4.2): bytes transferred together with the updated socket, a
timeout condition that leaves the socket state intact, or an unbounded
block when no timeout is configured and no progress is possible. -/
inductive XferResult
  | bytes (data : List Nat) (s : TSocket)
  | timedOut (s : TSocket)
  | blockedForever
  deriving DecidableEq

/-- Modelled from the spec: receiveBytes performs at most one transfer
attempt; with no pending data it fails with the timeout condition once the
configured receive timeout elapses, leaving the socket state unchanged
(sections 4.2 and 7); with pending data it returns the bytes, bounded by
the destination buffer size. -/
def TSocket.receiveBytesTO (s : TSocket) (bufSize : Nat) : XferResult :=
  if s.pending.isEmpty then
    match s.recvTimeout with
    | some _ => XferResult.timedOut s
    | none => XferResult.blockedForever
  else
    XferResult.bytes (s.pending.take bufSize) { s with pending := s.pending.drop bufSize }

/-- Modelled from the spec: sendBytes performs at most one transfer
attempt; when the send cannot progress it fails with the timeout condition
once the configured send timeout elapses, leaving the socket state
unchanged (sections 4.2 and 7); otherwise the whole buffer is
transferred. -/
def TSocket.sendBytesTO (s : TSocket) (data : List Nat) : XferResult :=
  if s.sendBlocked then
    match s.sendTimeout with
    | some _ => XferResult.timedOut s
    | none => XferResult.blockedForever
  else
    XferResult.bytes data s

/-- C6: on a connected open socket with a configured receive timeout and
no pending data, receiveBytes fails with the timeout condition rather than
blocking unboundedly, returning the socket state unchanged — so the handle
stays open and a retry on the same socket succeeds as soon as data is
pending; the analogous contract holds for the send timeout. -/
theorem receive_timeout (s : TSocket) (bufSize t u : Nat) (data : List Nat)
    (hopen : s.isOpen = true) (hpend : s.pending = [])
    (hrt : s.recvTimeout = some t) (hst : s.sendTimeout = some u)
    (hblk : s.sendBlocked = true) :
    s.receiveBytesTO bufSize = XferResult.timedOut s ∧
    s.isOpen = true ∧
    (∀ d ds, TSocket.receiveBytesTO { s with pending := d :: ds } bufSize
      = XferResult.bytes ((d :: ds).take bufSize) { s with pending := (d :: ds).drop bufSize }) ∧
    s.sendBytesTO data = XferResult.timedOut s := by
  refine ⟨?_, hopen, ?_, ?_⟩
  · simp [TSocket.receiveBytesTO, hpend, hrt]
  · intro d ds
    simp [TSocket.receiveBytesTO]
  · simp [TSocket.sendBytesTO, hblk, hst]

/-- Witness for C6: the test-suite socket with both timeouts set to 250000
microseconds, empty pending data and a blocked send path. -/
theorem receive_timeout_witness :
    TSocket.receiveBytesTO ⟨true, some 250000, some 250000, [], true⟩ 256
      = XferResult.timedOut ⟨true, some 250000, some 250000, [], true⟩ ∧
    TSocket.sendBytesTO ⟨true, some 250000, some 250000, [], true⟩ helloBytes
      = XferResult.timedOut ⟨true, some 250000, some 250000, [], true⟩ :=
  ⟨(receive_timeout ⟨true, some 250000, some 250000, [], true⟩ 256 250000 250000
      helloBytes rfl rfl rfl rfl rfl).1,
    (receive_timeout ⟨true, some 250000, some 250000, [], true⟩ 256 250000 250000
      helloBytes rfl rfl rfl rfl rfl).2.2.2⟩

/-- Modelled from the spec: poll(timeout, mode) with time as data (section
4.2): the argument records the time, in microseconds from the start of
the call, at which the awaited readiness occurs (none when it never
occurs during the wait). The call returns whether the socket became ready
before the deadline together with the elapsed time: readiness at time t
within the timeout returns true promptly at t; otherwise the call waits
out the full timeout and returns false. -/
def pollModel (arrival : Option Nat) (timeout : Nat) : Bool × Nat :=
  match arrival with
  | none => (false, timeout)
  | some t => if t ≤ timeout then (true, t) else (false, timeout)

/-- C7: polling for read with no pending data and a 1000000-microsecond
timeout returns false with at least 900000 microseconds elapsed; a false
return always means the full timeout elapsed, and no readiness during the
wait never yields true; once data has already arrived (readiness at time
0), poll returns true with elapsed time under 100000 microseconds, and the
same holds for polling a writable socket for write readiness. -/
theorem poll_timing :
    ((pollModel none 1000000).1 = false ∧ 900000 ≤ (pollModel none 1000000).2) ∧
    (∀ timeout, (pollModel none timeout).1 = false) ∧
    (∀ arrival timeout,
      (pollModel arrival timeout).1 = false → (pollModel arrival timeout).2 = timeout) ∧
    ((pollModel (some 0) 1000000).1 = true ∧ (pollModel (some 0) 1000000).2 < 100000) := by
  refine ⟨by decide, fun timeout => rfl, ?_, by decide⟩
  intro arrival timeout h
  match arrival with
  | none => rfl
  | some t =>
    by_cases hle : t ≤ timeout
    · simp [pollModel, hle] at h
    · simp [pollModel, hle]

/-- Witness for C7: a readiness arrival at 2000000 microseconds misses a
1000000-microsecond deadline, so poll returns false after the full
timeout. -/
theorem poll_timing_witness :
    (pollModel (some 2000000) 1000000).2 = 1000000 :=
  poll_timing.2.2.1 (some 2000000) 1000000 (by decide)

/-- Modelled from the spec: for the equality contract a façade is its
shared-ownership reference to a handle (section 3), identified here by a
number; the kind tag plays no role in equality. -/
structure HSocket where
  handle : Nat
  deriving DecidableEq

/-- Modelled from the spec: two façades compare equal iff they share the
same handle (section 4.2). -/
def HSocket.eqOp (a b : HSocket) : Bool :=
  a.handle == b.handle

/-- Modelled from the spec: default construction yields a façade with its
own fresh handle (section 4.1, default construction of an invalid handle);
freshness is modelled by an allocation counter threaded through. -/
def mkDefaultSocket (fresh : Nat) : HSocket × Nat :=
  (⟨fresh⟩, fresh + 1)

/-- Modelled from the spec: copy-construction of a façade shares the
source's handle (section 3, aliasing). -/
def HSocket.copy (a : HSocket) : HSocket :=
  ⟨a.handle⟩

/-- Modelled from the spec: compatible assignment rebinds the target to
share the source's handle (section 3, aliasing). -/
def HSocket.assign (target source : HSocket) : HSocket :=
  ⟨source.handle⟩

/-- C8: façade equality holds iff the two share the same handle; two
default-constructed façades (with handles from consecutive allocations)
are unequal; a copy is equal to its source; and after assignment the
target equals the source and is no longer equal to an alias of its
previous handle. -/
theorem socket_equality (fresh : Nat) (a b : HSocket) (hab : a.handle ≠ b.handle) :
    (∀ x y : HSocket, HSocket.eqOp x y = true ↔ x.handle = y.handle) ∧
    HSocket.eqOp (mkDefaultSocket fresh).1 (mkDefaultSocket (mkDefaultSocket fresh).2).1 = false ∧
    HSocket.eqOp (HSocket.copy a) a = true ∧
    HSocket.eqOp (HSocket.assign a b) b = true ∧
    HSocket.eqOp (HSocket.assign a b) ⟨a.handle⟩ = false := by
  refine ⟨fun x y => ?_, ?_, ?_, ?_, ?_⟩
  · simp [HSocket.eqOp]
  · simp [HSocket.eqOp, mkDefaultSocket]
  · simp [HSocket.eqOp, HSocket.copy]
  · simp [HSocket.eqOp, HSocket.assign]
  · simp [HSocket.eqOp, HSocket.assign]
    exact fun hc => hab hc.symm

/-- Witness for C8: concrete façades with handles 5 and 7 and allocation
counter starting at 0. -/
theorem socket_equality_witness :
    (5 : Nat) ≠ 7 ∧
    HSocket.eqOp (HSocket.assign ⟨5⟩ ⟨7⟩) ⟨7⟩ = true ∧
    HSocket.eqOp (HSocket.assign ⟨5⟩ ⟨7⟩) ⟨5⟩ = false :=
  ⟨by decide,
    (socket_equality 0 ⟨5⟩ ⟨7⟩ (by decide)).2.2.2.1,
    (socket_equality 0 ⟨5⟩ ⟨7⟩ (by decide)).2.2.2.2⟩

/-- Modelled from the spec: a socket façade carrying its connection state
and its blocking flag (section 4.2, setBlocking). -/
structure NBSocket where
  conn : EchoConn
  blocking : Bool
  deriving DecidableEq

/-- Modelled from the spec: setBlocking toggles blocking mode on the
shared handle (section 4.2). -/
def NBSocket.setBlocking (s : NBSocket) (b : Bool) : NBSocket :=
  { s with blocking := b }

/-- Modelled from the spec: poll for write readiness (section 4.2); the
connected loopback pair of the harness always has room in its send
buffer, so the socket is immediately write-ready. -/
def NBSocket.pollWrite (s : NBSocket) (timeout : Nat) : Bool :=
  true

/-- Modelled from the spec: poll for read readiness (section 4.2); the
socket is read-ready exactly when echoed bytes are pending for it. -/
def NBSocket.pollRead (s : NBSocket) (timeout : Nat) : Bool :=
  !s.conn.toClient.isEmpty

/-- Modelled from the spec: the outcome of a non-blocking transfer
attempt (section 5): bytes sent or received with the updated socket, or
an immediate would-block indication instead of blocking the caller. -/
inductive NBResult
  | transferred (n : Nat) (s : NBSocket)
  | received (data : List Nat) (s : NBSocket)
  | wouldBlock
  deriving DecidableEq

/-- Modelled from the spec: sendBytes on the connected loopback pair
transfers the whole buffer without blocking once write readiness holds
(sections 4.2 and 5). -/
def NBSocket.sendBytesNB (s : NBSocket) (data : List Nat) : NBResult :=
  NBResult.transferred (s.conn.sendBytes data).2 { s with conn := (s.conn.sendBytes data).1 }

/-- Modelled from the spec: receiveBytes in non-blocking mode returns a
would-block indication instead of blocking when no data is pending
(section 5); otherwise it returns the pending bytes bounded by the
destination buffer size. -/
def NBSocket.receiveBytesNB (s : NBSocket) (bufSize : Nat) : NBResult :=
  if (!s.blocking && s.conn.toClient.isEmpty) then
    NBResult.wouldBlock
  else
    NBResult.received (s.conn.receiveBytes bufSize).2 { s with conn := (s.conn.receiveBytes bufSize).1 }

/-- C9: after setBlocking(false) on a freshly connected socket, a write
poll succeeds and sendBytes then transfers all N bytes without blocking;
after the echo server reflects them a read poll succeeds, and receiveBytes
then returns exactly those N bytes — the round-trip contract is preserved
in non-blocking mode when each transfer is paired with a successful
poll. -/
theorem nonblocking_roundtrip (fam : AddressFamily) (data : List Nat) (bufSize t1 t2 : Nat)
    (hne : data ≠ []) (hlen : data.length ≤ bufSize) :
    (NBSocket.mk (EchoConn.connect fam) true).setBlocking false
      = NBSocket.mk (EchoConn.connect fam) false ∧
    (NBSocket.mk (EchoConn.connect fam) false).pollWrite t1 = true ∧
    (NBSocket.mk (EchoConn.connect fam) false).sendBytesNB data
      = NBResult.transferred data.length (NBSocket.mk ⟨fam, data, []⟩ false) ∧
    (NBSocket.mk (EchoConn.echoStep ⟨fam, data, []⟩) false).pollRead t2 = true ∧
    (NBSocket.mk (EchoConn.echoStep ⟨fam, data, []⟩) false).receiveBytesNB bufSize
      = NBResult.received data (NBSocket.mk ⟨fam, [], []⟩ false) := by
  refine ⟨rfl, rfl, ?_, ?_, ?_⟩
  · simp [NBSocket.sendBytesNB, EchoConn.sendBytes, EchoConn.connect]
  · simp [NBSocket.pollRead, EchoConn.echoStep, hne]
  · simp [NBSocket.receiveBytesNB, EchoConn.echoStep, EchoConn.receiveBytes, hne,
      List.take_of_length_le hlen, List.drop_eq_nil_of_le hlen]

/-- Witness for C9: the concrete non-blocking "hello" exchange of the
test suite over IPv4 loopback with buffer size 256 and 1000000-microsecond
polls. -/
theorem nonblocking_roundtrip_witness :
    helloBytes ≠ [] ∧ helloBytes.length ≤ 256 ∧
    ((NBSocket.mk (EchoConn.connect AddressFamily.ipv4) false).sendBytesNB helloBytes
        = NBResult.transferred helloBytes.length
            (NBSocket.mk ⟨AddressFamily.ipv4, helloBytes, []⟩ false) ∧
      (NBSocket.mk (EchoConn.echoStep ⟨AddressFamily.ipv4, helloBytes, []⟩) false).pollRead 1000000
        = true ∧
      (NBSocket.mk (EchoConn.echoStep ⟨AddressFamily.ipv4, helloBytes, []⟩) false).receiveBytesNB 256
        = NBResult.received helloBytes (NBSocket.mk ⟨AddressFamily.ipv4, [], []⟩ false)) :=
  ⟨by decide, by decide,
    (nonblocking_roundtrip AddressFamily.ipv4 helloBytes 256 1000000 1000000
        (by decide) (by decide)).2.2⟩

/-- Modelled from the spec: a connected stream socket end, exposing its
own local address and the address of its peer (sections 4.2 and 6). -/
structure ConnSocket where
  localAddr : NetAddr
  peerAddr : NetAddr
  deriving DecidableEq

/-- Modelled from the spec: a listening server socket, holding its bound
address and the backlog of local endpoints of clients whose connects have
been established but not yet accepted (section 4.2). -/
structure ListeningServer where
  addr : NetAddr
  backlog : List NetAddr
  deriving DecidableEq

/-- Modelled from the spec: connect binds the client socket to a live
descriptor at an ephemeral local endpoint, establishes the connection to
the server's address and enqueues the client's endpoint on the server's
backlog (section 4.2). -/
def connectToServer (srv : ListeningServer) (clientHost : String) (ephemeralPort : Nat) :
    ConnSocket × ListeningServer :=
  (⟨⟨clientHost, ephemeralPort⟩, srv.addr⟩,
    { srv with backlog := srv.backlog ++ [⟨clientHost, ephemeralPort⟩] })

/-- Modelled from the spec: acceptConnection takes the next established
connection off the backlog and returns a new StreamSocket façade with its
own fresh handle, connected to that peer (section 4.2); with an empty
backlog it would block, modelled as none. -/
def acceptConnection (srv : ListeningServer) : Option (ConnSocket × ListeningServer) :=
  match srv.backlog with
  | [] => none
  | c :: rest => some (⟨srv.addr, c⟩, { srv with backlog := rest })

/-- C10: for a connect to a listening server followed by the server's
acceptConnection, the accepted socket's peer address has the same host and
the same port as the connecting socket's local address — both ends agree
on the client endpoint. -/
theorem peer_address_agreement (srv : ListeningServer) (clientHost : String)
    (ephemeralPort : Nat) (hempty : srv.backlog = []) :
    ∃ accepted srv2,
      acceptConnection (connectToServer srv clientHost ephemeralPort).2
          = some (accepted, srv2) ∧
      accepted.peerAddr.host = (connectToServer srv clientHost ephemeralPort).1.localAddr.host ∧
      accepted.peerAddr.port = (connectToServer srv clientHost ephemeralPort).1.localAddr.port := by
  refine ⟨⟨srv.addr, ⟨clientHost, ephemeralPort⟩⟩, ⟨srv.addr, []⟩, ?_, rfl, rfl⟩
  simp [acceptConnection, connectToServer, hempty]

/-- Witness for C10: a loopback server at port 8080 with empty backlog and
a client connecting from ephemeral port 54321. -/
theorem peer_address_agreement_witness :
    ∃ accepted srv2,
      acceptConnection (connectToServer ⟨⟨"127.0.0.1", 8080⟩, []⟩ "127.0.0.1" 54321).2
          = some (accepted, srv2) ∧
      accepted.peerAddr.host
          = (connectToServer ⟨⟨"127.0.0.1", 8080⟩, []⟩ "127.0.0.1" 54321).1.localAddr.host ∧
      accepted.peerAddr.port
          = (connectToServer ⟨⟨"127.0.0.1", 8080⟩, []⟩ "127.0.0.1" 54321).1.localAddr.port :=
  peer_address_agreement ⟨⟨"127.0.0.1", 8080⟩, []⟩ "127.0.0.1" 54321 rfl
